import Mathlib

/-!
Verification of the domain-expiration-monitor repository.

Times and durations are modelled as `Int` nanoseconds, matching Go's
`time.Time`/`time.Duration` representation used throughout the source.
Fallible collaborators (the SQL repositories, the WHOIS resolver, the
webhook transport) are modelled by explicit result parameters, and the
stateful alert store by an explicit list of persisted records.
-/

namespace DEM

/-- Nanoseconds in one second (Go `time.Second`). -/
def nsPerSecond : Int := 1000000000

/-- Nanoseconds in one hour (Go `time.Hour`). -/
def nsPerHour : Int := 3600 * nsPerSecond

/-- Nanoseconds in one day (`24 * time.Hour`). -/
def nsPerDay : Int := 24 * nsPerHour

/-- `internal/domain`: the monitored-domain record (struct `Domain`). -/
structure Domain where
  id : String
  name : String
  expirationDate : Int
  nameservers : List String
  registrant : String
  registrar : String
  lastChecked : Int
  nextCheck : Int
  createdAt : Int
  updatedAt : Int
deriving Repr, DecidableEq

/-- `internal/domain/config.go`: struct `Config` (durations stored as ns). -/
structure Config where
  monitoringInterval : Int
  alertThresholds : List Int
  googleChatWebhook : String
  retentionPeriod : Int
deriving Repr, DecidableEq

/-- `internal/domain`: struct `Alert`, the persisted alert/dedup record. -/
structure Alert where
  id : String
  domainID : String
  domainName : String
  threshold : Int
  expirationDate : Int
  sentAt : Int
  success : Bool
  errorMessage : String
deriving Repr, DecidableEq

/-- `internal/domain`: struct `DomainInfo`, the parsed WHOIS response. -/
structure DomainInfo where
  domainName : String
  expirationDate : Int
  nameservers : List String
  registrant : String
  registrar : String
deriving Repr, DecidableEq

/-- `ConfigRepository.createDefaultConfig`: 24h interval, thresholds
90/60/30/7 days, empty webhook, 90-day retention. -/
def defaultConfig : Config :=
  { monitoringInterval := 24 * nsPerHour
    alertThresholds := [90 * nsPerDay, 60 * nsPerDay, 30 * nsPerDay, 7 * nsPerDay]
    googleChatWebhook := ""
    retentionPeriod := 90 * nsPerDay }

/-! ## Alert store (`internal/repository/db.go`, `AlertRepository`) -/

/-- `AlertRepository.HasAlertBeenSent`: `SELECT COUNT(*) FROM alerts WHERE
domain_id = ? AND threshold = ?` compared with zero. -/
def hasAlertBeenSent (store : List Alert) (domainID : String) (threshold : Int) : Bool :=
  store.any fun a => a.domainID == domainID && a.threshold == threshold

/-- Number of persisted alert records for one (domainId, threshold) pair. -/
def countAlertsFor (store : List Alert) (domainID : String) (threshold : Int) : Nat :=
  (store.filter fun a => a.domainID == domainID && a.threshold == threshold).length

/-! ## Alert service (`internal/alert/service.go`) -/

/-- The fresh record built inside `Service.EvaluateAlerts` before delivery
(`DomainID`, `DomainName`, `ExpirationDate`, `SentAt`, `SetThreshold`). -/
def mkAlert (d : Domain) (t : Int) (now : Int) : Alert :=
  { id := "", domainID := d.id, domainName := d.name, threshold := t
    expirationDate := d.expirationDate, sentAt := now
    success := false, errorMessage := "" }

/-- `EvaluateAlerts` sets `Success`/`ErrorMessage` from the `SendAlert`
outcome before persisting. -/
def finishAlert (res : Except String Unit) (a : Alert) : Alert :=
  match res with
  | .ok _ => { a with success := true }
  | .error e => { a with success := false, errorMessage := e }

/-- Injected storage faults: whether the dedup query or the insert errors
for a given threshold. -/
structure Faults where
  hasSentErr : Int → Bool
  createErr : Int → Bool

/-- The fault-free store behaviour. -/
def noFaults : Faults := { hasSentErr := fun _ => false, createErr := fun _ => false }

/-- One iteration of the `EvaluateAlerts` threshold loop
(`internal/alert/service.go` lines 42-74): eligibility test
`timeUntilExpiration <= threshold && timeUntilExpiration > 0`, dedup query,
delivery, unconditional persist of the finished record.
`.error ()` models an early `return err` from the Go function. -/
def evalStep (deliver : Alert → Except String Unit) (f : Faults) (d : Domain)
    (now : Int) (store : List Alert) (t : Int) : Except Unit (List Alert) :=
  if d.expirationDate - now ≤ t ∧ 0 < d.expirationDate - now then
    if f.hasSentErr t then .error ()
    else if hasAlertBeenSent store d.id t then .ok store
    else
      let a := finishAlert (deliver (mkAlert d t now)) (mkAlert d t now)
      if f.createErr t then .error () else .ok (store ++ [a])
  else .ok store

/-- The `EvaluateAlerts` loop over the configured thresholds.  The `Bool`
component records whether the call returned an error; the store component
is the database state left behind (mutations before the error survive). -/
def evalLoop (deliver : Alert → Except String Unit) (f : Faults) (d : Domain)
    (now : Int) : List Int → List Alert → List Alert × Bool
  | [], store => (store, false)
  | t :: ts, store =>
    match evalStep deliver f d now store t with
    | .error _ => (store, true)
    | .ok s' => evalLoop deliver f d now ts s'

/-- `Service.EvaluateAlerts`: read the config (fallible), then run the
threshold loop; delivery goes through `SendAlert(alert, config.GoogleChatWebhook)`. -/
def evaluateAlerts (deliver : String → Alert → Except String Unit) (f : Faults)
    (cfgRes : Except Unit Config) (d : Domain) (now : Int) (store : List Alert) :
    List Alert × Bool :=
  match cfgRes with
  | .error _ => (store, true)
  | .ok cfg => evalLoop (deliver cfg.googleChatWebhook) f d now cfg.alertThresholds store

/-- The retry loop of `Service.SendAlert` (3 attempts, backoff 1s doubling,
no sleep after the final attempt). `post i` is the outcome of the i-th
`sendToWebhook` call; the result carries the returned error, the number of
attempts performed, and the list of sleeps taken. -/
def sendAlertAttempts (post : Nat → Except String Unit) :
    Nat → Nat → Int → List Int → String → Except String Unit × Nat × List Int
  | 0, idx, _, sleeps, lastErr =>
    (.error ("failed after 3 attempts: " ++ lastErr), idx, sleeps)
  | r + 1, idx, backoff, sleeps, _ =>
    match post idx with
    | .ok _ => (.ok (), idx + 1, sleeps)
    | .error e =>
      if r = 0 then sendAlertAttempts post 0 (idx + 1) backoff sleeps e
      else sendAlertAttempts post r (idx + 1) (backoff * 2) (sleeps ++ [backoff]) e

/-- `Service.SendAlert` (`internal/alert/service.go` lines 80-105): empty
webhook URL is an immediate distinguishable error with no delivery attempt;
otherwise up to 3 webhook posts with 1s/2s backoff. -/
def sendAlert (post : Nat → Except String Unit) (webhookURL : String) :
    Except String Unit × Nat × List Int :=
  if webhookURL == "" then (.error "no webhook URL configured", 0, [])
  else sendAlertAttempts post 3 0 nsPerSecond [] ""

/-! ## WHOIS lookup client (`internal/whois/service.go`) -/

/-- The retry loop of `Service.QueryDomain`: `maxRetries = 3`, backoff
starting at 1s and doubling, sleep only while `attempt < maxRetries-1`,
final error wrapped as `failed after %d attempts: %w`.  `att i` is the
outcome of the i-th `queryWithTimeout` call; the result carries the
returned value, the number of attempts performed and the sleeps taken. -/
def queryDomainAttempts (att : Nat → Except String DomainInfo) :
    Nat → Nat → Int → List Int → String → Except String DomainInfo × Nat × List Int
  | 0, idx, _, sleeps, lastErr =>
    (.error ("failed after 3 attempts: " ++ lastErr), idx, sleeps)
  | r + 1, idx, backoff, sleeps, _ =>
    match att idx with
    | .ok info => (.ok info, idx + 1, sleeps)
    | .error e =>
      if r = 0 then queryDomainAttempts att 0 (idx + 1) backoff sleeps e
      else queryDomainAttempts att r (idx + 1) (backoff * 2) (sleeps ++ [backoff]) e

/-- `Service.QueryDomain` with the service's defaults (3 retries, 1s initial
backoff). -/
def queryDomain (att : Nat → Except String DomainInfo) :
    Except String DomainInfo × Nat × List Int :=
  queryDomainAttempts att 3 0 nsPerSecond [] ""

/-! ## Monitoring scheduler (`internal/scheduler`) -/

/-- One `time.Timer` created by `ScheduleDomain`; `handle` is its creation
index, `active` is false once `timer.Stop()` was called on it (or it was
replaced).  Keeping every timer ever created lets us state that re-arming
leaks no active timer. -/
structure STimer where
  handle : Nat
  domainId : String
  delay : Int
  active : Bool
deriving Repr, DecidableEq

/-- The scheduler's timer registry: all timers ever created plus the
`scheduledDomains` map from domain id to the handle of its current timer. -/
structure SchedState where
  timers : List STimer
  slot : List (String × Nat)
deriving Repr, DecidableEq

/-- `timer.Stop()` on the timer with the given handle. -/
def stopTimer (ts : List STimer) (h : Nat) : List STimer :=
  ts.map fun t => if t.handle == h then { t with active := false } else t

/-- Go map read `m[k]` on the association list. -/
def slotLookup (s : List (String × Nat)) (id : String) : Option Nat :=
  match s with
  | [] => none
  | p :: rest => if p.1 == id then some p.2 else slotLookup rest id

/-- Go map assignment `m[k] = v` on the association list. -/
def slotSet (s : List (String × Nat)) (id : String) (h : Nat) : List (String × Nat) :=
  match s with
  | [] => [(id, h)]
  | p :: rest => if p.1 == id then (id, h) :: rest else p :: slotSet rest id h

/-- The delay computed by `ScheduleDomain`: `time.Until(d.NextCheck)` when
`now` is before `d.NextCheck`, else `0` (check immediately). -/
def goDelay (d : Domain) (now : Int) : Int :=
  if now < d.nextCheck then d.nextCheck - now else 0

/-- `Scheduler.ScheduleDomain` (`internal/scheduler`, lines 92-115): stop any
existing timer for the id, arm a fresh one-shot timer with the computed
delay, record it in the map. -/
def scheduleDomain (st : SchedState) (d : Domain) (now : Int) : SchedState :=
  let ts1 := match slotLookup st.slot d.id with
    | some h => stopTimer st.timers h
    | none => st.timers
  let fresh : STimer :=
    { handle := st.timers.length, domainId := d.id, delay := goDelay d now, active := true }
  { timers := ts1 ++ [fresh], slot := slotSet st.slot d.id st.timers.length }

/-- Number of active timers registered for a domain id. -/
def activeCount (st : SchedState) (id : String) : Nat :=
  (st.timers.filter fun t => t.active && t.domainId == id).length

/-- Well-formedness of the timer registry, maintained by the scheduler:
handles are creation indices, map entries point at existing timers, and
every active timer is the one currently registered for its domain. -/
def SchedState.wf (st : SchedState) : Prop :=
  st.timers.map STimer.handle = List.range st.timers.length ∧
  (∀ p ∈ st.slot, p.2 < st.timers.length) ∧
  (∀ t ∈ st.timers, t.active = true → slotLookup st.slot t.domainId = some t.handle)

instance (st : SchedState) : Decidable st.wf := by
  unfold SchedState.wf; infer_instance

/-! ## Tick pipeline (`Scheduler.checkDomain`, lines 129-198) -/

/-- Why the domain re-read (`domainRepo.GetByID`) failed: the row is gone, or
the store returned a transient error.  `checkDomain` cannot distinguish the
two — any non-nil error takes the same silent-return path. -/
inductive ReadErr where
  | notFound
  | transient
deriving Repr, DecidableEq

/-- Outcomes of the collaborators during one fired tick. -/
structure TickEnv where
  domainRes : Except ReadErr Domain
  configRes : Except Unit Config
  whoisRes : Except Unit DomainInfo
  updateOk : Bool
  shutdownAtStart : Bool
  shutdownAtResched : Bool
deriving Repr

/-- Observable effects of one `checkDomain` run: the domain value passed to
`domainRepo.Update` (if reached), whether that update succeeded, the domain
passed to `EvaluateAlerts` (if reached), and the domain passed to
`ScheduleDomain` (if rescheduling happened). -/
structure TickResult where
  updateAttempt : Option Domain
  persisted : Bool
  evaluated : Option Domain
  rescheduled : Option Domain
deriving Repr, DecidableEq

/-- `Scheduler.reschedule`: no-op when shutdown has been signalled. -/
def rescheduleTo (env : TickEnv) (d : Domain) : Option Domain :=
  if env.shutdownAtResched then none else some d

/-- `Scheduler.checkDomain`: worker-slot acquisition aborts on shutdown; a
failed re-read returns silently with no reschedule; a failed config read
reschedules; on WHOIS failure the check times are still advanced and the
stale domain persisted and evaluated; on WHOIS success all looked-up fields
are overwritten; an update failure still reschedules. -/
def checkDomain (env : TickEnv) (now : Int) : TickResult :=
  if env.shutdownAtStart then
    { updateAttempt := none, persisted := false, evaluated := none, rescheduled := none }
  else
    match env.domainRes with
    | .error _ =>
      { updateAttempt := none, persisted := false, evaluated := none, rescheduled := none }
    | .ok d =>
      match env.configRes with
      | .error _ =>
        { updateAttempt := none, persisted := false, evaluated := none
          rescheduled := rescheduleTo env d }
      | .ok config =>
        match env.whoisRes with
        | .error _ =>
          let d' := { d with lastChecked := now
                             nextCheck := now + config.monitoringInterval }
          if env.updateOk then
            { updateAttempt := some d', persisted := true, evaluated := some d'
              rescheduled := rescheduleTo env d' }
          else
            { updateAttempt := some d', persisted := false, evaluated := none
              rescheduled := rescheduleTo env d' }
        | .ok info =>
          let d' := { d with expirationDate := info.expirationDate
                             nameservers := info.nameservers
                             registrant := info.registrant
                             registrar := info.registrar
                             lastChecked := now
                             nextCheck := now + config.monitoringInterval }
          if env.updateOk then
            { updateAttempt := some d', persisted := true, evaluated := some d'
              rescheduled := rescheduleTo env d' }
          else
            { updateAttempt := some d', persisted := false, evaluated := none
              rescheduled := rescheduleTo env d' }

/-! ## Config update handler (`internal/web/handlers.go`, lines 179-260) -/

/-- `monitoring_interval` form field: reject hours below 1, else store the
interval in nanoseconds. -/
def stepInterval (intervalHours : Option Int) (c : Config) : Except String Config :=
  match intervalHours with
  | none => .ok c
  | some hours =>
    if hours < 1 then .error "Monitoring interval must be at least 1 hour"
    else .ok { c with monitoringInterval := hours * nsPerHour }

/-- `webhook_url` form field: a non-empty value must start with `https://`;
the (possibly empty) value is then assigned unconditionally. -/
def stepWebhook (webhook : String) (c : Config) : Except String Config :=
  if webhook != "" && !(webhook.startsWith "https://") then
    .error "Webhook URL must use HTTPS"
  else .ok { c with googleChatWebhook := webhook }

/-- `retention_period` form field: reject days below 1. -/
def stepRetention (retentionDays : Option Int) (c : Config) : Except String Config :=
  match retentionDays with
  | none => .ok c
  | some days =>
    if days < 1 then .error "Retention period must be at least 1 day"
    else .ok { c with retentionPeriod := days * nsPerDay }

/-- `alert_thresholds` form field (day values after parsing): any value ≤ 0
is rejected, an empty list is rejected, otherwise stored in nanoseconds. -/
def stepThresholds (thresholdDays : Option (List Int)) (c : Config) : Except String Config :=
  match thresholdDays with
  | none => .ok c
  | some ds =>
    if ds.any (· ≤ 0) then .error "Invalid threshold value"
    else if ds.isEmpty then .error "At least one alert threshold is required"
    else .ok { c with alertThresholds := ds.map (· * nsPerDay) }

/-- `Server.handleUpdateConfig`: the four validations in source order; the
first failure renders an error and returns before `configRepo.Update`. -/
def handleUpdateConfig (cfg : Config) (intervalHours : Option Int) (webhook : String)
    (retentionDays : Option Int) (thresholdDays : Option (List Int)) :
    Except String Config :=
  (((stepInterval intervalHours cfg).bind (stepWebhook webhook)).bind
    (stepRetention retentionDays)).bind (stepThresholds thresholdDays)

/-- The stored configuration after one update request: `configRepo.Update`
runs only when validation passed, so a rejected update leaves the store
unchanged. -/
def applyConfigUpdate (stored : Config) (intervalHours : Option Int) (webhook : String)
    (retentionDays : Option Int) (thresholdDays : Option (List Int)) : Config :=
  match handleUpdateConfig stored intervalHours webhook retentionDays thresholdDays with
  | .ok c => c
  | .error _ => stored

/-! ## Domain retention query (`internal/repository/domain.go`, lines 169-182) -/

/-- `DomainRepository.DeleteOlderThan`: rows surviving
`DELETE FROM domains WHERE created_at < ? AND id NOT IN (SELECT id FROM domains)`. -/
def deleteOlderThanDomains (rows : List Domain) (cutoff : Int) : List Domain :=
  rows.filter fun d =>
    !(decide (d.createdAt < cutoff) && !((rows.map Domain.id).contains d.id))

/-! ## Alert message formatting (`Service.FormatAlertMessage`, `Alert.DaysUntilExpiration`) -/

/-- Civil date from a day count since 1970-01-01 (proleptic Gregorian),
the arithmetic Go's `time` package performs for `Format("2006-01-02")`. -/
def civilFromDays (z0 : Int) : Int × Int × Int :=
  let z := z0 + 719468
  let era := Int.fdiv z 146097
  let doe := z - era * 146097
  let yoe := Int.fdiv (doe - Int.fdiv doe 1460 + Int.fdiv doe 36524 - Int.fdiv doe 146096) 365
  let y := yoe + era * 400
  let doy := doe - (365 * yoe + Int.fdiv yoe 4 - Int.fdiv yoe 100)
  let mp := Int.fdiv (5 * doy + 2) 153
  let d := doy - Int.fdiv (153 * mp + 2) 5 + 1
  let m := mp + (if mp < 10 then 3 else -9)
  (if m ≤ 2 then y + 1 else y, m, d)

/-- Zero-pad a (non-negative, small) component to two digits. -/
def pad2 (n : Int) : String :=
  if n < 10 then "0" ++ toString n else toString n

/-- Go `t.Format("2006-01-02")` on a UTC instant given in nanoseconds. -/
def formatDate (t : Int) : String :=
  let c := civilFromDays (Int.fdiv t nsPerDay)
  toString c.1 ++ "-" ++ pad2 c.2.1 ++ "-" ++ pad2 c.2.2

/-- `Alert.DaysUntilExpiration`: whole days between `SentAt` and
`ExpirationDate`, truncated toward zero (`int(duration.Hours() / 24)`). -/
def daysUntilExpiration (a : Alert) : Int :=
  Int.tdiv (a.expirationDate - a.sentAt) nsPerDay

/-- `Service.FormatAlertMessage`.  The prefix reproduces the source bytes
exactly: the file contains U+00F0 U+0178 U+201D U+201D (the UTF-8 bytes of
the bell emoji mis-decoded as Windows-1252), not U+1F514. -/
def formatAlertMessage (a : Alert) : String :=
  let daysRemaining := daysUntilExpiration a
  let thresholdDays := Int.tdiv a.threshold nsPerDay
  "ðŸ”” Domain Expiration Alert\n\n" ++
    "Domain: " ++ a.domainName ++ "\n" ++
    "Expiration Date: " ++ formatDate a.expirationDate ++ "\n" ++
    "Days Remaining: " ++ toString daysRemaining ++ "\n" ++
    "Alert Threshold: " ++ toString thresholdDays ++ " days\n\n" ++
    "Please renew this domain to avoid service disruption."

/-! ## Shared helper lemmas -/

/-- `finishAlert` never changes the dedup key fields. -/
theorem finishAlert_domainID (r : Except String Unit) (a : Alert) :
    (finishAlert r a).domainID = a.domainID := by
  cases r <;> rfl

theorem finishAlert_threshold (r : Except String Unit) (a : Alert) :
    (finishAlert r a).threshold = a.threshold := by
  cases r <;> rfl

/-! ## C9: the retention filter on domains deletes nothing -/

/-- C9: for every cutoff and every table state, `DomainRepository.DeleteOlderThan`
leaves the domains table unchanged: its `id NOT IN (SELECT id FROM domains)`
filter is unsatisfiable for any stored row. -/
theorem deleteOlderThanDomains_noop (rows : List Domain) (cutoff : Int) :
    deleteOlderThanDomains rows cutoff = rows := by
  unfold deleteOlderThanDomains
  apply List.filter_eq_self.mpr
  intro d hd
  have hmem : d.id ∈ rows.map Domain.id := List.mem_map_of_mem Domain.id hd
  simp [List.contains, List.elem_iff.mpr hmem]
  exact Or.inr ⟨d, hd, rfl⟩

/-! ## C4: WHOIS refresh retry/backoff -/

/-- C4: `Service.QueryDomain` makes at most 3 lookup attempts; when every
attempt fails it sleeps 1s after the first failure and 2s after the second,
performs no attempt after the third, and returns the final attempt's error
wrapped with the attempt count. -/
theorem queryDomain_retries (att : Nat → Except String DomainInfo) :
    (queryDomain att).2.1 ≤ 3 ∧
    (∀ e0 e1 e2, att 0 = .error e0 → att 1 = .error e1 → att 2 = .error e2 →
      queryDomain att =
        (.error ("failed after 3 attempts: " ++ e2), 3, [nsPerSecond, nsPerSecond * 2])) := by
  constructor
  · rcases h0 : att 0 with e0 | i0 <;> rcases h1 : att 1 with e1 | i1 <;>
      rcases h2 : att 2 with e2 | i2 <;>
      simp [queryDomain, queryDomainAttempts, h0, h1, h2]
  · intro e0 e1 e2 h0 h1 h2
    simp [queryDomain, queryDomainAttempts, h0, h1, h2]

/-- A resolver that times out on every attempt. -/
def alwaysTimeout : Nat → Except String DomainInfo :=
  fun _ => .error "WHOIS query timed out after 30s"

theorem queryDomain_retries_witness :
    alwaysTimeout 0 = .error "WHOIS query timed out after 30s" ∧
    queryDomain alwaysTimeout =
      (.error ("failed after 3 attempts: " ++ "WHOIS query timed out after 30s"), 3,
        [nsPerSecond, nsPerSecond * 2]) :=
  ⟨rfl, (queryDomain_retries alwaysTimeout).2 _ _ _ rfl rfl rfl⟩

/-! ## C5: WHOIS failure during a tick preserves stale data -/

/-- C5: when the WHOIS lookup fails in a tick, the pipeline still advances
`lastChecked` to now and `nextCheck` to now + interval, persists, leaves the
expiration/nameserver/registrant/registrar fields untouched, and alert
evaluation still runs on that stale-data domain. -/
theorem checkDomain_whois_failure (env : TickEnv) (now : Int) (d : Domain) (cfg : Config)
    (hd : env.domainRes = .ok d) (hc : env.configRes = .ok cfg)
    (hw : env.whoisRes = .error ()) (hu : env.updateOk = true)
    (hs : env.shutdownAtStart = false) :
    checkDomain env now =
      { updateAttempt :=
          some { d with lastChecked := now, nextCheck := now + cfg.monitoringInterval }
        persisted := true
        evaluated :=
          some { d with lastChecked := now, nextCheck := now + cfg.monitoringInterval }
        rescheduled :=
          rescheduleTo env
            { d with lastChecked := now, nextCheck := now + cfg.monitoringInterval } } := by
  simp [checkDomain, hd, hc, hw, hu, hs]

/-- A tick whose WHOIS lookup failed but whose storage worked. -/
def staleTickEnv : TickEnv :=
  { domainRes := .ok ⟨"d1", "example.com", 100, ["ns1"], "r", "reg", 1, 2, 3, 4⟩
    configRes := .ok defaultConfig
    whoisRes := .error ()
    updateOk := true
    shutdownAtStart := false
    shutdownAtResched := false }

theorem checkDomain_whois_failure_witness :
    staleTickEnv.whoisRes = .error () ∧
    checkDomain staleTickEnv 7 =
      { updateAttempt :=
          some ⟨"d1", "example.com", 100, ["ns1"], "r", "reg", 7,
                7 + defaultConfig.monitoringInterval, 3, 4⟩
        persisted := true
        evaluated :=
          some ⟨"d1", "example.com", 100, ["ns1"], "r", "reg", 7,
                7 + defaultConfig.monitoringInterval, 3, 4⟩
        rescheduled :=
          some ⟨"d1", "example.com", 100, ["ns1"], "r", "reg", 7,
                7 + defaultConfig.monitoringInterval, 3, 4⟩ } :=
  ⟨rfl, checkDomain_whois_failure staleTickEnv 7 _ defaultConfig rfl rfl rfl rfl rfl⟩

/-! ## C2: rescheduling after a fired tick -/

/-- A tick in which the domain still exists but the re-read by id failed
with a transient storage error, with shutdown not signalled. -/
def transientReadEnv : TickEnv :=
  { domainRes := .error .transient
    configRes := .ok defaultConfig
    whoisRes := .error ()
    updateOk := true
    shutdownAtStart := false
    shutdownAtResched := false }

/-- C2 counterexample: a transient storage error on the domain re-read (not
a concurrent deletion, and with no shutdown signalled) ends the tick with no
reschedule — the domain silently stops being monitored, contradicting the
claim that only deletion or shutdown suppress rescheduling. -/
theorem checkDomain_transient_read_no_reschedule :
    transientReadEnv.domainRes = .error .transient ∧
    transientReadEnv.shutdownAtStart = false ∧
    transientReadEnv.shutdownAtResched = false ∧
    (checkDomain transientReadEnv 0).rescheduled = none := by
  refine ⟨rfl, rfl, rfl, rfl⟩

/-- C2 amended: after every fired tick with shutdown not signalled, the
domain is rescheduled whenever the re-read by id succeeds — in particular a
transient error in the config read or the domain update never prevents
rescheduling; but any failure of the re-read itself (deletion or transient
storage error alike) aborts the tick with no reschedule. -/
theorem checkDomain_reschedules (env : TickEnv) (now : Int) :
    (∀ d, env.domainRes = .ok d → env.shutdownAtStart = false →
      env.shutdownAtResched = false →
      (checkDomain env now).rescheduled.isSome = true) ∧
    (∀ e, env.domainRes = .error e → (checkDomain env now).rescheduled = none) := by
  constructor
  · intro d hd hs hr
    rcases hc : env.configRes with u | cfg <;>
      rcases hw : env.whoisRes with u2 | info <;>
      rcases hu : env.updateOk with _ | _ <;>
      simp [checkDomain, rescheduleTo, hd, hc, hw, hu, hs, hr]
  · intro e he
    rcases hs : env.shutdownAtStart with _ | _ <;> simp [checkDomain, hs, he]

/-- A tick whose config read failed transiently but whose re-read worked. -/
def configErrEnv : TickEnv :=
  { domainRes := .ok ⟨"d2", "b.example", 50, [], "", "", 0, 0, 0, 0⟩
    configRes := .error ()
    whoisRes := .error ()
    updateOk := false
    shutdownAtStart := false
    shutdownAtResched := false }

theorem checkDomain_reschedules_witness :
    configErrEnv.domainRes = .ok ⟨"d2", "b.example", 50, [], "", "", 0, 0, 0, 0⟩ ∧
    (checkDomain configErrEnv 0).rescheduled.isSome = true :=
  ⟨rfl, (checkDomain_reschedules configErrEnv 0).1 _ rfl rfl rfl⟩

/-! ## C3: the 25-day / no-webhook scenario -/

/-- The scenario domain: expires 25 days after the evaluation instant. -/
def scenarioDomain : Domain :=
  ⟨"d1", "example.com", 25 * nsPerDay, [], "", "", 0, 0, 0, 0⟩

/-- Webhook transport for the scenario; it must never be reached. -/
def scenarioPost : Nat → Except String Unit := fun _ => .error "unreachable"

/-- Delivery through the real `SendAlert` with the configured webhook URL. -/
def scenarioDeliver : String → Alert → Except String Unit :=
  fun w _ => (sendAlert scenarioPost w).1

/-- One `EvaluateAlerts` run for the scenario: default config (thresholds
90/60/30/7 days, empty webhook), empty alert store, now = 0. -/
def scenarioRun : List Alert × Bool :=
  evaluateAlerts scenarioDeliver noFaults (.ok defaultConfig) scenarioDomain 0 []

/-- The (threshold, delivered, failureReason) triples of the persisted records. -/
def scenarioSummary : List (Int × Bool × String) :=
  scenarioRun.1.map fun a => (a.threshold, a.success, a.errorMessage)

/-- C3 counterexample: the scenario evaluation persists three records — for
the 90-, 60- and 30-day thresholds — each failed with reason
"no webhook URL configured"; not the single 30-day record with reason
"no endpoint configured" that the claim states. -/
theorem scenario_counterexample :
    scenarioSummary =
      [(90 * nsPerDay, false, "no webhook URL configured"),
       (60 * nsPerDay, false, "no webhook URL configured"),
       (30 * nsPerDay, false, "no webhook URL configured")] ∧
    scenarioSummary ≠ [(30 * nsPerDay, false, "no endpoint configured")] := by
  constructor <;> decide

/-- C3 amended: for a domain expiring in 25 days with thresholds
90/60/30/7 days and no webhook endpoint configured, one evaluation succeeds
and persists exactly three AlertRecords — one per threshold at or above the
remaining time (90, 60 and 30 days) — each with delivered = false and
failureReason "no webhook URL configured"; the Notifier rejects the empty
endpoint immediately with zero delivery attempts; and the failed records
are persisted, so a second evaluation creates nothing. -/
theorem scenario_three_failed_records :
    scenarioRun.2 = false ∧
    scenarioSummary =
      [(90 * nsPerDay, false, "no webhook URL configured"),
       (60 * nsPerDay, false, "no webhook URL configured"),
       (30 * nsPerDay, false, "no webhook URL configured")] ∧
    sendAlert scenarioPost "" = (.error "no webhook URL configured", 0, []) ∧
    evaluateAlerts scenarioDeliver noFaults (.ok defaultConfig) scenarioDomain 0
        scenarioRun.1 = (scenarioRun.1, false) := by
  refine ⟨rfl, by decide, rfl, by decide⟩

/-! ## C8: the formatted webhook message -/

/-- A persisted alert: example.com, expiring 2025-12-29, sent 2025-12-04
(25 whole days before expiration), threshold 30 days. -/
def bugAlert : Alert :=
  ⟨"", "d1", "example.com", 30 * nsPerDay, 20451 * nsPerDay, 20426 * nsPerDay, false, ""⟩

set_option maxRecDepth 4096 in
/-- C8: evaluating `FormatAlertMessage` at a concrete record.  The code
emits a message whose first characters are U+00F0 U+0178 U+201D U+201D (the
UTF-8 bytes of the bell emoji mis-decoded as Windows-1252) instead of the
single U+1F514 bell that the spec and the repository's own testing guide
give; the remainder of the message (date, days remaining, threshold)
matches the claim. -/
theorem formatAlertMessage_mojibake :
    formatAlertMessage bugAlert =
      "ðŸ”” Domain Expiration Alert\n\nDomain: example.com\nExpiration Date: 2025-12-29\nDays Remaining: 25\nAlert Threshold: 30 days\n\nPlease renew this domain to avoid service disruption." ∧
    formatAlertMessage bugAlert ≠
      "🔔 Domain Expiration Alert\n\nDomain: example.com\nExpiration Date: 2025-12-29\nDays Remaining: 25\nAlert Threshold: 30 days\n\nPlease renew this domain to avoid service disruption." := by
  constructor <;> decide

/-! ## C7: config-update validation -/

/-- Whether a repository call returned without error. -/
def exceptOk {ε α : Type} : Except ε α → Bool
  | .ok _ => true
  | .error _ => false

theorem exceptOk_bind_of_left {ε α β : Type} (x : Except ε α) (g : α → Except ε β)
    (h : exceptOk x = false) : exceptOk (x.bind g) = false := by
  cases x with
  | ok a => simp [exceptOk] at h
  | error e => rfl

theorem exceptOk_bind_of_right {ε α β : Type} (x : Except ε α) (g : α → Except ε β)
    (h : ∀ a, exceptOk (g a) = false) : exceptOk (x.bind g) = false := by
  cases x with
  | ok a => exact h a
  | error e => rfl

theorem applyConfigUpdate_of_rejected (cfg : Config) (ih : Option Int) (w : String)
    (rd : Option Int) (td : Option (List Int))
    (h : exceptOk (handleUpdateConfig cfg ih w rd td) = false) :
    applyConfigUpdate cfg ih w rd td = cfg := by
  unfold applyConfigUpdate
  rcases hr : handleUpdateConfig cfg ih w rd td with e | c
  · rfl
  · rw [hr] at h; simp [exceptOk] at h

/-- C7: an update with interval hours < 1, or any threshold day value ≤ 0,
or retention days < 1, or a non-empty webhook URL not starting with
`https://`, is rejected before `configRepo.Update` runs and the stored
configuration is unchanged; an update with interval 2h passes validation
and is read back with a 2-hour monitoring interval. -/
theorem handleUpdateConfig_validation (cfg : Config) (ih : Option Int) (w : String)
    (rd : Option Int) (td : Option (List Int)) :
    (((∃ h, ih = some h ∧ h < 1) ∨
      (∃ ds t, td = some ds ∧ t ∈ ds ∧ t ≤ 0) ∨
      (∃ dys, rd = some dys ∧ dys < 1) ∨
      (w ≠ "" ∧ w.startsWith "https://" = false)) →
      exceptOk (handleUpdateConfig cfg ih w rd td) = false ∧
      applyConfigUpdate cfg ih w rd td = cfg) ∧
    applyConfigUpdate defaultConfig (some 2) "" none none =
      { defaultConfig with monitoringInterval := 2 * nsPerHour } ∧
    exceptOk (handleUpdateConfig defaultConfig (some 2) "" none none) = true := by
  refine ⟨fun hbad => ?_, by decide, by decide⟩
  have hrej : exceptOk (handleUpdateConfig cfg ih w rd td) = false := by
    unfold handleUpdateConfig
    rcases hbad with ⟨h, hih, hlt⟩ | ⟨ds, t, htd, hmem, hle⟩ | ⟨dys, hrd, hlt⟩ | ⟨hne, hpre⟩
    · apply exceptOk_bind_of_left
      apply exceptOk_bind_of_left
      apply exceptOk_bind_of_left
      simp [stepInterval, hih, hlt, exceptOk]
    · apply exceptOk_bind_of_right
      intro c
      have hany : ds.any (· ≤ 0) = true :=
        List.any_eq_true.mpr ⟨t, hmem, by simpa using hle⟩
      simp [stepThresholds, htd, hany, exceptOk]
    · apply exceptOk_bind_of_left
      apply exceptOk_bind_of_right
      intro c
      simp [stepRetention, hrd, hlt, exceptOk]
    · apply exceptOk_bind_of_left
      apply exceptOk_bind_of_left
      apply exceptOk_bind_of_right
      intro c
      simp [stepWebhook, hne, hpre, exceptOk]
  exact ⟨hrej, applyConfigUpdate_of_rejected cfg ih w rd td hrej⟩

theorem handleUpdateConfig_validation_witness :
    ((0 : Int) < 1) ∧
    applyConfigUpdate defaultConfig (some 0) "" none none = defaultConfig :=
  ⟨by decide,
    ((handleUpdateConfig_validation defaultConfig (some 0) "" none none).1
      (Or.inl ⟨0, rfl, by decide⟩)).2⟩

/-! ## C1: at-most-once alert creation per (domain, threshold) -/

theorem hasAlertBeenSent_false_iff (store : List Alert) (id : String) (t : Int) :
    hasAlertBeenSent store id t = false ↔ countAlertsFor store id t = 0 := by
  simp [hasAlertBeenSent, countAlertsFor, List.length_eq_zero, List.filter_eq_nil_iff]

theorem countAlertsFor_append (s1 s2 : List Alert) (id : String) (t : Int) :
    countAlertsFor (s1 ++ s2) id t = countAlertsFor s1 id t + countAlertsFor s2 id t := by
  simp [countAlertsFor, List.filter_append]

theorem countAlertsFor_new (d : Domain) (hd now : Int) (r : Except String Unit)
    (id : String) (t : Int) :
    countAlertsFor [finishAlert r (mkAlert d hd now)] id t =
      if d.id = id ∧ hd = t then 1 else 0 := by
  by_cases h1 : d.id = id <;> by_cases h2 : hd = t <;>
    cases r <;> simp [countAlertsFor, finishAlert, mkAlert, h1, h2]

/-- How one fault-free `EvaluateAlerts` loop changes the number of records
for a fixed (domain, threshold) pair: it becomes 1 when the threshold is in
the list, currently crossed (`0 < remaining ≤ t`) and not yet recorded, and
is unchanged otherwise. -/
theorem evalLoop_count (deliver : Alert → Except String Unit) (d : Domain) (now t : Int) :
    ∀ (ts : List Int) (store : List Alert),
      countAlertsFor (evalLoop deliver noFaults d now ts store).1 d.id t =
        if t ∈ ts ∧ (d.expirationDate - now ≤ t ∧ 0 < d.expirationDate - now) ∧
            countAlertsFor store d.id t = 0
        then 1 else countAlertsFor store d.id t := by
  intro ts
  induction ts with
  | nil => intro store; simp [evalLoop]
  | cons hd ts ih =>
    intro store
    by_cases hel : d.expirationDate - now ≤ hd ∧ 0 < d.expirationDate - now
    · by_cases hsent : hasAlertBeenSent store d.id hd = true
      · have hstep : evalStep deliver noFaults d now store hd = .ok store := by
          simp [evalStep, noFaults, hel, hsent]
        have hloop : evalLoop deliver noFaults d now (hd :: ts) store =
            evalLoop deliver noFaults d now ts store := by
          simp [evalLoop, hstep]
        rw [hloop, ih store]
        by_cases hht : hd = t
        · have hcount : countAlertsFor store d.id t ≠ 0 := by
            rw [← hht]
            intro h0
            rw [(hasAlertBeenSent_false_iff store d.id hd).mpr h0] at hsent
            exact Bool.false_ne_true hsent
          simp [hcount]
        · have hth : ¬ t = hd := fun h => hht h.symm
          simp [List.mem_cons, hth]
      · have hsent2 : hasAlertBeenSent store d.id hd = false := by
          revert hsent; cases hasAlertBeenSent store d.id hd <;> simp
        have hcnt0 : countAlertsFor store d.id hd = 0 :=
          (hasAlertBeenSent_false_iff store d.id hd).mp hsent2
        have hstep : evalStep deliver noFaults d now store hd =
            .ok (store ++ [finishAlert (deliver (mkAlert d hd now)) (mkAlert d hd now)]) := by
          simp [evalStep, noFaults, hel, hsent2]
        have hloop : evalLoop deliver noFaults d now (hd :: ts) store =
            evalLoop deliver noFaults d now ts
              (store ++ [finishAlert (deliver (mkAlert d hd now)) (mkAlert d hd now)]) := by
          simp [evalLoop, hstep]
        rw [hloop, ih]
        have happ : countAlertsFor
            (store ++ [finishAlert (deliver (mkAlert d hd now)) (mkAlert d hd now)]) d.id t =
            countAlertsFor store d.id t + (if hd = t then 1 else 0) := by
          rw [countAlertsFor_append, countAlertsFor_new]
          simp
        by_cases hht : hd = t
        · subst hht
          rw [happ]
          simp [hcnt0, hel]
        · have hth : ¬ t = hd := fun h => hht h.symm
          rw [happ]
          simp [hht, List.mem_cons, hth]
    · have hstep : evalStep deliver noFaults d now store hd = .ok store := by
        unfold evalStep
        rw [if_neg hel]
      have hloop : evalLoop deliver noFaults d now (hd :: ts) store =
          evalLoop deliver noFaults d now ts store := by
        simp [evalLoop, hstep]
      rw [hloop, ih store]
      by_cases hht : hd = t
      · subst hht
        have hc1 : ¬(hd ∈ ts ∧ (d.expirationDate - now ≤ hd ∧ 0 < d.expirationDate - now) ∧
            countAlertsFor store d.id hd = 0) := fun h => hel h.2.1
        have hc2 : ¬(hd ∈ hd :: ts ∧
            (d.expirationDate - now ≤ hd ∧ 0 < d.expirationDate - now) ∧
            countAlertsFor store d.id hd = 0) := fun h => hel h.2.1
        rw [if_neg hc1, if_neg hc2]
      · have hth : ¬ t = hd := fun h => hht h.symm
        simp [List.mem_cons, hth]

/-- C1: for any configured threshold t that a domain has crossed
(`0 < remaining ≤ t`) with no existing record for (domain.id, t), one
`EvaluateAlerts` call creates exactly one record for the pair and a second
call creates none; and a threshold with `remaining > t` or `remaining ≤ 0`
never gains a record. -/
theorem evaluateAlerts_exactly_once (deliver : String → Alert → Except String Unit)
    (cfg : Config) (d : Domain) (now : Int) (store : List Alert) (t : Int)
    (ht : t ∈ cfg.alertThresholds) :
    (0 < d.expirationDate - now → d.expirationDate - now ≤ t →
      countAlertsFor store d.id t = 0 →
      countAlertsFor (evaluateAlerts deliver noFaults (.ok cfg) d now store).1 d.id t = 1 ∧
      countAlertsFor (evaluateAlerts deliver noFaults (.ok cfg) d now
        (evaluateAlerts deliver noFaults (.ok cfg) d now store).1).1 d.id t = 1) ∧
    ((t < d.expirationDate - now ∨ d.expirationDate - now ≤ 0) →
      countAlertsFor (evaluateAlerts deliver noFaults (.ok cfg) d now store).1 d.id t =
        countAlertsFor store d.id t) := by
  have e1 : ∀ s : List Alert, evaluateAlerts deliver noFaults (.ok cfg) d now s =
      evalLoop (deliver cfg.googleChatWebhook) noFaults d now cfg.alertThresholds s :=
    fun _ => rfl
  constructor
  · intro hpos hle hcnt
    have h1 : countAlertsFor (evaluateAlerts deliver noFaults (.ok cfg) d now store).1
        d.id t = 1 := by
      rw [e1 store, evalLoop_count]
      rw [if_pos ⟨ht, ⟨hle, hpos⟩, hcnt⟩]
    refine ⟨h1, ?_⟩
    have hnc : ¬(t ∈ cfg.alertThresholds ∧
        (d.expirationDate - now ≤ t ∧ 0 < d.expirationDate - now) ∧
        countAlertsFor (evaluateAlerts deliver noFaults (.ok cfg) d now store).1 d.id t
          = 0) := by
      rintro ⟨-, -, hzero⟩
      omega
    rw [e1 ((evaluateAlerts deliver noFaults (.ok cfg) d now store).1), evalLoop_count,
      if_neg hnc]
    exact h1
  · intro hnot
    have hnc : ¬(t ∈ cfg.alertThresholds ∧
        (d.expirationDate - now ≤ t ∧ 0 < d.expirationDate - now) ∧
        countAlertsFor store d.id t = 0) := by
      rintro ⟨-, ⟨hle2, hpos2⟩, -⟩
      rcases hnot with hlt | hle0 <;> omega
    rw [e1 store, evalLoop_count, if_neg hnc]

/-- A delivery collaborator whose webhook posts always succeed. -/
def okDeliver : String → Alert → Except String Unit := fun _ _ => .ok ()

/-- A domain crossing the 30-day threshold (expires in 25 days). -/
def c1Domain : Domain := ⟨"c1", "c1.example", 25 * nsPerDay, [], "", "", 0, 0, 0, 0⟩

theorem evaluateAlerts_exactly_once_witness :
    (30 * nsPerDay ∈ defaultConfig.alertThresholds ∧
      (0 : Int) < c1Domain.expirationDate - 0 ∧
      c1Domain.expirationDate - 0 ≤ 30 * nsPerDay ∧
      countAlertsFor [] c1Domain.id (30 * nsPerDay) = 0) ∧
    countAlertsFor (evaluateAlerts okDeliver noFaults (.ok defaultConfig) c1Domain 0 []).1
      c1Domain.id (30 * nsPerDay) = 1 :=
  ⟨⟨by decide, by decide, by decide, by decide⟩,
    ((evaluateAlerts_exactly_once okDeliver defaultConfig c1Domain 0 [] (30 * nsPerDay)
      (by decide)).1 (by decide) (by decide) (by decide)).1⟩

/-! ## C10: error propagation inside one EvaluateAlerts call -/

/-- C10: an `EvaluateAlerts` call in which reading the config fails returns
immediately with the store untouched; and whenever the threshold loop runs
error-free through a prefix `pre` and then errors at threshold `t` (a failed
dedup query or a failed insert makes `evalStep` return an error), the call
returns that error with exactly the records created for `pre` persisted —
no rollback — and the result does not depend on the thresholds after `t`,
which are never examined. -/
theorem evaluateAlerts_error_propagation (deliver : Alert → Except String Unit)
    (f : Faults) (d : Domain) (now : Int) (store : List Alert) :
    (∀ (dv : String → Alert → Except String Unit),
      evaluateAlerts dv f (.error ()) d now store = (store, true)) ∧
    (∀ (pre post : List Int) (t : Int),
      (evalLoop deliver f d now pre store).2 = false →
      evalStep deliver f d now (evalLoop deliver f d now pre store).1 t = .error () →
      evalLoop deliver f d now (pre ++ t :: post) store =
        ((evalLoop deliver f d now pre store).1, true)) := by
  constructor
  · intro dv
    rfl
  · intro pre
    induction pre generalizing store with
    | nil =>
      intro post t _ hstep
      have hstep2 : evalStep deliver f d now store t = .error () := hstep
      show evalLoop deliver f d now (t :: post) store = _
      simp [evalLoop, hstep2]
    | cons p pre ih =>
      intro post t h1 hstep
      rcases hp : evalStep deliver f d now store p with u | s1
      · exfalso
        have : (evalLoop deliver f d now (p :: pre) store).2 = true := by
          simp [evalLoop, hp]
        rw [h1] at this
        exact Bool.false_ne_true this
      · have hcons : ∀ (ts : List Int),
            evalLoop deliver f d now (p :: ts) store = evalLoop deliver f d now ts s1 := by
          intro ts
          simp [evalLoop, hp]
        rw [hcons] at h1 hstep
        rw [List.cons_append, hcons, hcons]
        exact ih s1 post t h1 hstep

/-- Storage faults for the witness: the insert for the 60-day threshold fails. -/
def c10Faults : Faults :=
  { hasSentErr := fun _ => false, createErr := fun t => t == 60 * nsPerDay }

/-- Delivery used by the C10 witness (always succeeds). -/
def c10Deliver : Alert → Except String Unit := fun _ => .ok ()

theorem evaluateAlerts_error_propagation_witness :
    (evalLoop c10Deliver c10Faults c1Domain 0 [90 * nsPerDay] []).2 = false ∧
    evalLoop c10Deliver c10Faults c1Domain 0
        ([90 * nsPerDay] ++ 60 * nsPerDay :: [30 * nsPerDay, 7 * nsPerDay]) [] =
      ((evalLoop c10Deliver c10Faults c1Domain 0 [90 * nsPerDay] []).1, true) :=
  ⟨rfl,
    (evaluateAlerts_error_propagation c10Deliver c10Faults c1Domain 0 []).2
      [90 * nsPerDay] [30 * nsPerDay, 7 * nsPerDay] (60 * nsPerDay) rfl (by rfl)⟩

/-! ## C6: schedule cancels the predecessor and arms exactly one timer -/

theorem stopTimer_map_handle (ts : List STimer) (h : Nat) :
    (stopTimer ts h).map STimer.handle = ts.map STimer.handle := by
  induction ts with
  | nil => rfl
  | cons t ts ih =>
    have hhd : (if (t.handle == h) = true then { t with active := false } else t).handle
        = t.handle := by
      split <;> rfl
    calc (stopTimer (t :: ts) h).map STimer.handle
        = (if (t.handle == h) = true then { t with active := false } else t).handle ::
            (stopTimer ts h).map STimer.handle := rfl
      _ = t.handle :: ts.map STimer.handle := by rw [hhd, ih]

theorem slotLookup_slotSet_self (s : List (String × Nat)) (id : String) (h : Nat) :
    slotLookup (slotSet s id h) id = some h := by
  induction s with
  | nil => simp [slotSet, slotLookup]
  | cons p rest ih =>
    by_cases hp : (p.1 == id) = true
    · simp [slotSet, slotLookup, hp]
    · simp [slotSet, slotLookup, hp, ih]

theorem slotLookup_slotSet_ne (s : List (String × Nat)) (id : String) (h : Nat)
    (id2 : String) (hne : id2 ≠ id) :
    slotLookup (slotSet s id h) id2 = slotLookup s id2 := by
  have h2 : (id == id2) = false := by
    rw [beq_eq_false_iff_ne]
    exact fun he => hne he.symm
  induction s with
  | nil => simp [slotSet, slotLookup, h2]
  | cons p rest ih =>
    by_cases hp : (p.1 == id) = true
    · have hpid : p.1 = id := beq_iff_eq.mp hp
      have h3 : (p.1 == id2) = false := by
        rw [hpid]
        exact h2
      simp [slotSet, slotLookup, hp, h2, h3]
    · simp [slotSet, slotLookup, hp, ih]

theorem slotSet_mem (s : List (String × Nat)) (id : String) (h : Nat)
    (p : String × Nat) (hp : p ∈ slotSet s id h) : p = (id, h) ∨ p ∈ s := by
  induction s with
  | nil => simpa [slotSet] using hp
  | cons q rest ih =>
    by_cases hq : (q.1 == id) = true
    · rw [slotSet] at hp
      rw [if_pos hq] at hp
      rcases List.mem_cons.mp hp with he | hr
      · exact Or.inl he
      · exact Or.inr (List.mem_cons_of_mem q hr)
    · rw [slotSet] at hp
      rw [if_neg hq] at hp
      rcases List.mem_cons.mp hp with he | hr
      · exact Or.inr (he ▸ List.mem_cons_self q rest)
      · rcases ih hr with h1 | h2
        · exact Or.inl h1
        · exact Or.inr (List.mem_cons_of_mem q h2)

/-- After the cancel step of `ScheduleDomain`, every still-active timer is
still the registered one for its domain, and none of them belongs to the
domain being scheduled. -/
theorem ts1_spec (st : SchedState) (d : Domain)
    (hactive : ∀ t ∈ st.timers, t.active = true →
      slotLookup st.slot t.domainId = some t.handle) :
    ∀ t ∈ (match slotLookup st.slot d.id with
            | some h => stopTimer st.timers h
            | none => st.timers),
      t.active = true → slotLookup st.slot t.domainId = some t.handle ∧ t.domainId ≠ d.id := by
  rcases hl : slotLookup st.slot d.id with _ | h0 <;> intro t ht hta
  · refine ⟨hactive t ht hta, fun hdom => ?_⟩
    have hlk := hactive t ht hta
    rw [hdom, hl] at hlk
    exact Option.noConfusion hlk
  · obtain ⟨t0, ht0, heq⟩ := List.mem_map.mp ht
    by_cases hbeq : (t0.handle == h0) = true
    · exfalso
      rw [← heq] at hta
      simp [hbeq] at hta
    · have hteq : (if (t0.handle == h0) = true then { t0 with active := false } else t0)
          = t0 := by
        rw [if_neg hbeq]
      rw [hteq] at heq
      subst heq
      have hlk := hactive t0 ht0 hta
      refine ⟨hlk, fun hdom => ?_⟩
      rw [hdom, hl] at hlk
      have hh : h0 = t0.handle := by
        injection hlk
      exact hbeq (beq_iff_eq.mpr hh.symm)

theorem filter_active_of_spec (ts1 : List STimer) (d : Domain)
    (hact : ∀ t ∈ ts1, t.active = true → t.domainId ≠ d.id) :
    ts1.filter (fun t => t.active && t.domainId == d.id) = [] := by
  rw [List.filter_eq_nil_iff]
  intro t ht hpt
  have h1 : t.active = true ∧ (t.domainId == d.id) = true := by
    simpa [Bool.and_eq_true] using hpt
  exact hact t ht h1.1 (beq_iff_eq.mp h1.2)

/-- Appending the fresh timer to any cancel-step result that satisfies the
active-timer spec yields a well-formed registry again. -/
theorem wf_extend (st : SchedState) (d : Domain) (now : Int) (ts1 : List STimer)
    (hmap : ts1.map STimer.handle = st.timers.map STimer.handle)
    (hact : ∀ t ∈ ts1, t.active = true →
      slotLookup st.slot t.domainId = some t.handle ∧ t.domainId ≠ d.id)
    (hhandles : st.timers.map STimer.handle = List.range st.timers.length)
    (hbound : ∀ p ∈ st.slot, p.2 < st.timers.length) :
    SchedState.wf
      ⟨ts1 ++ [⟨st.timers.length, d.id, goDelay d now, true⟩],
        slotSet st.slot d.id st.timers.length⟩ := by
  have hlen1 : ts1.length = st.timers.length := by
    have := congrArg List.length hmap
    simpa using this
  refine ⟨?_, ?_, ?_⟩
  · simp [List.map_append, hmap, hhandles, hlen1, List.range_succ]
  · intro p hp
    rcases slotSet_mem _ _ _ _ hp with hpe | hps
    · subst hpe
      simp [hlen1]
    · have := hbound p hps
      simp [hlen1]
      omega
  · intro t htmem hta
    rcases List.mem_append.mp htmem with h1 | h2
    · obtain ⟨hlk, hne⟩ := hact t h1 hta
      show slotLookup (slotSet st.slot d.id st.timers.length) t.domainId = some t.handle
      rw [slotLookup_slotSet_ne st.slot d.id st.timers.length t.domainId hne]
      exact hlk
    · have ht : t = ⟨st.timers.length, d.id, goDelay d now, true⟩ := by
        simpa using h2
      subst ht
      show slotLookup (slotSet st.slot d.id st.timers.length) d.id = some st.timers.length
      exact slotLookup_slotSet_self st.slot d.id st.timers.length

/-- `ScheduleDomain` preserves the registry invariant. -/
theorem scheduleDomain_wf (st : SchedState) (d : Domain) (now : Int) (hwf : st.wf) :
    (scheduleDomain st d now).wf := by
  obtain ⟨hhandles, hbound, hactive⟩ := hwf
  have hspec := ts1_spec st d hactive
  rcases hl : slotLookup st.slot d.id with _ | h0
  · rw [hl] at hspec
    have hres : scheduleDomain st d now =
        ⟨st.timers ++ [⟨st.timers.length, d.id, goDelay d now, true⟩],
          slotSet st.slot d.id st.timers.length⟩ := by
      simp [scheduleDomain, hl]
    rw [hres]
    exact wf_extend st d now st.timers rfl hspec hhandles hbound
  · rw [hl] at hspec
    have hres : scheduleDomain st d now =
        ⟨stopTimer st.timers h0 ++ [⟨st.timers.length, d.id, goDelay d now, true⟩],
          slotSet st.slot d.id st.timers.length⟩ := by
      simp [scheduleDomain, hl]
    rw [hres]
    exact wf_extend st d now (stopTimer st.timers h0) (stopTimer_map_handle st.timers h0)
      hspec hhandles hbound

/-- After `ScheduleDomain`, exactly one active timer exists for the id. -/
theorem scheduleDomain_activeCount (st : SchedState) (d : Domain) (now : Int)
    (hwf : st.wf) : activeCount (scheduleDomain st d now) d.id = 1 := by
  obtain ⟨hhandles, hbound, hactive⟩ := hwf
  have hspec := ts1_spec st d hactive
  rcases hl : slotLookup st.slot d.id with _ | h0
  · rw [hl] at hspec
    have hres : scheduleDomain st d now =
        ⟨st.timers ++ [⟨st.timers.length, d.id, goDelay d now, true⟩],
          slotSet st.slot d.id st.timers.length⟩ := by
      simp [scheduleDomain, hl]
    rw [hres]
    unfold activeCount
    rw [List.filter_append, filter_active_of_spec st.timers d (fun t ht hta => (hspec t ht hta).2)]
    simp
  · rw [hl] at hspec
    have hres : scheduleDomain st d now =
        ⟨stopTimer st.timers h0 ++ [⟨st.timers.length, d.id, goDelay d now, true⟩],
          slotSet st.slot d.id st.timers.length⟩ := by
      simp [scheduleDomain, hl]
    rw [hres]
    unfold activeCount
    rw [List.filter_append,
      filter_active_of_spec (stopTimer st.timers h0) d (fun t ht hta => (hspec t ht hta).2)]
    simp

theorem goDelay_eq_max (d : Domain) (now : Int) :
    goDelay d now = max 0 (d.nextCheck - now) := by
  unfold goDelay
  by_cases hlt : now < d.nextCheck
  · rw [if_pos hlt, max_eq_right (by omega)]
  · rw [if_neg hlt, max_eq_left (by omega)]

/-- C6: `ScheduleDomain` stops the previous timer for the id and arms
exactly one fresh one-shot timer with delay `max(0, nextCheck - now)`; one
active timer remains for the id, and scheduling the same domain twice in
succession still leaves exactly one active timer. -/
theorem scheduleDomain_single_active (st : SchedState) (d : Domain) (now : Int)
    (hwf : st.wf) :
    (scheduleDomain st d now).timers.getLast? =
      some ⟨st.timers.length, d.id, max 0 (d.nextCheck - now), true⟩ ∧
    activeCount (scheduleDomain st d now) d.id = 1 ∧
    activeCount (scheduleDomain (scheduleDomain st d now) d now) d.id = 1 := by
  refine ⟨?_, scheduleDomain_activeCount st d now hwf,
    scheduleDomain_activeCount _ d now (scheduleDomain_wf st d now hwf)⟩
  rw [← goDelay_eq_max]
  rcases hl : slotLookup st.slot d.id with _ | h0 <;>
    simp [scheduleDomain, hl, List.getLast?_concat]

/-- A domain whose next check is 7ns ahead of the schedule instant. -/
def c6Domain : Domain := ⟨"d6", "c6.example", 0, [], "", "", 0, 10, 0, 0⟩

theorem scheduleDomain_single_active_witness :
    SchedState.wf ⟨[], []⟩ ∧
    activeCount (scheduleDomain (scheduleDomain ⟨[], []⟩ c6Domain 3) c6Domain 3)
      c6Domain.id = 1 :=
  ⟨by decide, (scheduleDomain_single_active ⟨[], []⟩ c6Domain 3 (by decide)).2.2⟩

end DEM
